import Mathlib

/-!
Verification development for `autofill_description.py`, a CI script that
generates a pull-request description: it fetches PR metadata and changed-file
patches from the GitHub API, optionally enriches the prompt with a Jira issue
description, calls the OpenAI responses API, post-processes the output and
patches it back onto the pull request.

Python strings are modelled as `List Char` (one entry per code point, so
Python `len` is `List.length` and slicing is `take`/`drop`).  The effectful
`main` is modelled as a pure function over an `Oracle` that fixes every
external response; its result records the exit code together with a trace of
the file-page requests, completion requests and write-backs performed.
-/

/-- A Python string, one element per code point. -/
abbrev Str := List Char

/-- Python substring containment `needle in hay`. -/
def has_substring : Str → Str → Bool
  | n, [] => n.isEmpty
  | n, c :: t => n.isPrefixOf (c :: t) || has_substring n t

/-- Python `str.strip()`: remove leading and trailing whitespace. -/
def py_strip (s : Str) : Str :=
  ((s.dropWhile Char.isWhitespace).reverse.dropWhile Char.isWhitespace).reverse

/-- One entry of the GitHub changed-files listing: a filename and, when the
diff is available, the `patch` text (`"patch" in file` in the source). -/
structure FileEntry where
  filename : Str
  patch : Option Str

/-- Pull-request metadata used by the script: `title`, `body` (possibly
`null`, hence `Option`) and the author `login`. -/
structure PRData where
  title : Str
  body : Option Str
  login : Str

/-- A text node of a structured Jira description (`part` in the source). -/
structure JiraPart where
  type : Str
  text : Str

/-- A top-level block of a structured Jira description. -/
structure JiraBlock where
  type : Str
  content : List JiraPart

/-- The `fields.description` value of a Jira issue: missing (or of an
unexpected type), a flat string, or a structured document. -/
inductive JiraDescriptionField where
  | absent
  | flat (s : Str)
  | doc (content : List JiraBlock)

/-- `_extract_jira_description`: a flat string is stripped; a structured
document concatenates the text of text-typed parts of paragraph-typed blocks,
each followed by a space, and strips the result. -/
def extract_jira_description (d : JiraDescriptionField) : Str :=
  match d with
  | .absent => []
  | .flat s => py_strip s
  | .doc blocks =>
      py_strip (blocks.foldl (fun acc block =>
        if block.type = "paragraph".data then
          block.content.foldl (fun a part =>
            if part.type = "text".data then a ++ part.text ++ " ".data else a) acc
        else acc) [])

/-- Outcome of the single Jira HTTP request: a transport failure, or a
response with a status code and, when the body parses as JSON, the shape of
its description field (`Option.none` models an unparseable body). -/
inductive JiraNet where
  | netFail
  | response (status : Nat) (body : Option JiraDescriptionField)

/-- `_fetch_jira_task_description`.  The second component records whether a
network request was performed.  Missing base URL, issue key or token
short-circuit to the empty string with no request; a transport failure, a
non-200 status or an unparseable body degrade to the empty string. -/
def fetch_jira_task_description (jira_base_url jira_issue_key jira_api_token : Str)
    (net : JiraNet) : Str × Bool :=
  if jira_base_url.isEmpty || jira_issue_key.isEmpty || jira_api_token.isEmpty then
    ([], false)
  else
    match net with
    | .netFail => ([], true)
    | .response status body =>
        if status ≠ 200 then ([], true)
        else
          match body with
          | Option.none => ([], true)
          | some d => (extract_jira_description d, true)

/-- The `exclude_filenames` set of `_build_prompt`. -/
def exclude_filenames : List Str := ["package-lock.json".data]

/-- The fixed instructional part of the `_build_prompt` f-string, up to and
including the newline after "motivation:". -/
def prompt_intro : Str :=
  "\nWrite a concise pull request description focusing on the motivation behind the change so that it is helpful for the reviewer to understand.\nGo straight to the point, avoid verbosity.\nPull request description should consist of three sections:\n## Description\nThis is the concise high level description in one short sentence of the PR. (what).\n\n## Motivation and Context\nWhy is this change required? Explain in one short sentence. What problem does it solve? (why)\n\n## Changes\nGo through step by step. What types of changes does your code introduce? Keep it short focusing only on maximum 3 most important changes. (how)\n\nBelow is additional context regarding task from the Jira ticket. Use them to write better description and motivation:\n".data

/-- The full header f-string of `_build_prompt`, with the task description
and the pull-request title interpolated. -/
def prompt_header (task_description pull_request_title : Str) : Str :=
  prompt_intro ++ task_description
    ++ "\n\nThe title of the pull request is \"".data ++ pull_request_title
    ++ "\" and the following changes took place:\n".data

/-- One `"\nChanges in file {filename}: {patch}\n"` line. -/
def file_line (filename patch : Str) : Str :=
  "\nChanges in file ".data ++ filename ++ ": ".data ++ patch ++ "\n".data

/-- One iteration of the file loop of `_build_prompt`: skip entries without a
`patch` key, skip excluded filenames, otherwise append the file line. -/
def prompt_step (acc : Str) (f : FileEntry) : Str :=
  match f.patch with
  | Option.none => acc
  | some patch =>
      if f.filename ∈ exclude_filenames then acc
      else acc ++ file_line f.filename patch

/-- The concatenation of the per-file lines produced by `_build_prompt`. -/
def prompt_body (files : List FileEntry) : Str := files.foldl prompt_step []

/-- `max_allowed_tokens` in `_build_prompt` (hardcoded). -/
def max_allowed_tokens : Nat := 2048

/-- `characters_per_token` in `_build_prompt`. -/
def characters_per_token : Nat := 4

/-- `max_allowed_characters = max_allowed_tokens * characters_per_token`. -/
def max_allowed_characters : Nat := max_allowed_tokens * characters_per_token

/-- `_build_prompt`: header plus file lines, truncated to
`max_allowed_characters` when longer. -/
def build_prompt (pull_request_title task_description : Str)
    (pull_request_files : List FileEntry) : Str :=
  let prompt := prompt_header task_description pull_request_title
    ++ prompt_body pull_request_files
  if max_allowed_characters < prompt.length then prompt.take max_allowed_characters
  else prompt

/-- The default of `INPUT_MAX_TOKENS` in `main` (`max_prompt_tokens`). -/
def default_max_prompt_tokens : Nat := 1000

/-- The literal `redundant_prefix = "This pull request "` of `main`. -/
def redundant_lead : Str := "This pull request ".data

/-- The post-processing rule of `main`: when the generated description starts
with `redundant_lead`, drop it and uppercase the first remaining character. -/
def strip_pr_lead (s : Str) : Str :=
  if redundant_lead.isPrefixOf s then
    match s.drop redundant_lead.length with
    | [] => []
    | c :: cs => c.toUpper :: cs
  else s

/-- `(openai_response.output_text or "").strip()` followed by the redundant
lead rule. -/
def post_process (out : Str) : Str := strip_pr_lead (py_strip out)

/-- `how_has_this_been_tested_section` of `main`. -/
def tested_section : Str :=
  "## How Has This Been Tested?\n\n<!--- Please describe in detail how you tested your changes. -->\n<!--- Include details of your testing environment, and the tests you ran to -->\n<!--- see how your change affects other areas of the code, etc. -->".data

/-- `fixes_jira_issue_section` of `main`. -/
def fixes_jira_section (jira_base_url jira_issue_key : Str) : Str :=
  "## Fixes Jira Issue\n\n[".data ++ jira_base_url ++ "/browse/".data ++ jira_issue_key
    ++ "](".data ++ jira_base_url ++ "/browse/".data ++ jira_issue_key ++ ")".data

/-- `depends_on_section` of `main`. -/
def depends_on_section : Str :=
  "## Depends On\n\n<!--- Does this PR depend on another PR that should be merged first or at the same time -->".data

/-- `tests_section` of `main`. -/
def tests_section : Str :=
  "## Tests included/Docs Updated?\n\n<!--- Go over all the following points, and put an `x` in all the boxes that apply. -->\n\n- [ ] I have added tests to cover my changes.\n- [ ] All relevant doc has been updated".data

/-- The final description written back: generated text followed by the four
boilerplate sections, separated by blank lines. -/
def final_description (jira_base_url jira_issue_key : Str) (generated : Str) : Str :=
  generated ++ "\n\n".data ++ tested_section ++ "\n\n".data
    ++ fixes_jira_section jira_base_url jira_issue_key ++ "\n\n".data
    ++ depends_on_section ++ "\n\n".data ++ tests_section

/-- Configuration of one run: the Jira CLI arguments and the
environment-derived settings, with defaults already resolved. -/
structure Config where
  jira_api_token : Str
  jira_issue_key : Str
  jira_base_url : Str
  allowed_users_env : Str
  open_ai_model : Str
  max_prompt_tokens : Nat
  model_temperature : Rat
  model_sample_prompt : Str
  model_sample_response : Str

/-- The `request_payload` dict sent to the responses API; `temperature` is
`Option.none` exactly when the key is absent from the dict. -/
structure Payload where
  model : Str
  input : Str
  max_output_tokens : Nat
  temperature : Option Rat

/-- The `prompt_text` few-shot wrapper of `main`, with the sample prompt, the
sample response and the completion prompt interpolated. -/
def prompt_text (model_sample_prompt model_sample_response completion_prompt : Str) : Str :=
  "You are a world class expert full stack web developer having experience with nodejs, typescript, express who writes pull request descriptions adding \x27description\x27 and \x27how has this been tested\x27 sections.\n\nUser: ".data
    ++ model_sample_prompt ++ "\nAssistant: ".data ++ model_sample_response
    ++ "\nUser: ".data ++ completion_prompt ++ "\nAssistant:".data

/-- `should_send_temperature` of `main`: temperature is sent unless the
lower-cased model name contains "codex" or starts with "gpt-5". -/
def should_send_temperature (open_ai_model : Str) : Bool :=
  let model_name_lower := open_ai_model.map Char.toLower
  !(has_substring "codex".data model_name_lower
    || "gpt-5".data.isPrefixOf model_name_lower)

/-- The request payload `main` builds before the first completion call. -/
def mk_payload (cfg : Config) (title task : Str) (files : List FileEntry) : Payload :=
  let completion_prompt := build_prompt title task files
  let text := prompt_text cfg.model_sample_prompt cfg.model_sample_response completion_prompt
  let base : Payload := ⟨cfg.open_ai_model, text, cfg.max_prompt_tokens, Option.none⟩
  if should_send_temperature cfg.open_ai_model then
    { base with temperature := some cfg.model_temperature }
  else base

/-- `unsupported_temperature` of `main`: the error message mentions both
"Unsupported parameter" and "temperature". -/
def unsupported_temperature (error_message : Str) : Bool :=
  has_substring "Unsupported parameter".data error_message
    && has_substring "temperature".data error_message

/-- The completion phase of `main`: first request, and on an unsupported
temperature error with temperature present, exactly one retry without it.
Returns the outcome and the list of payloads actually sent, in order. -/
def attempt_completion (respond : Payload → Except Str Str) (payload : Payload) :
    Except Unit Str × List Payload :=
  match respond payload with
  | .ok out => (.ok out, [payload])
  | .error e =>
      if unsupported_temperature e && payload.temperature.isSome then
        let retry := { payload with temperature := Option.none }
        match respond retry with
        | .ok out => (.ok out, [payload, retry])
        | .error _ => (.error (), [payload, retry])
      else (.error (), [payload])

/-- The file-pagination loop `for page_num in range(1, 11)`: request pages
starting at `page_num`, stop on a failed request, an empty page, or when the
fuel (remaining iterations) runs out.  Returns the collected entries (or the
error) together with the number of page requests issued. -/
def collect_files (page_result : Nat → Except Unit (List FileEntry)) :
    Nat → Nat → Except Unit (List FileEntry) × Nat
  | _, 0 => (.ok [], 0)
  | page_num, fuel + 1 =>
    match page_result page_num with
    | .error e => (.error e, 1)
    | .ok chunk =>
      if chunk.isEmpty then (.ok [], 1)
      else
        match collect_files page_result (page_num + 1) fuel with
        | (.error e, n) => (.error e, n + 1)
        | (.ok rest, n) => (.ok (chunk ++ rest), n + 1)

/-- A GitHub server holding `files` and honouring `?page={page_num}&per_page=30`
with 1-based pages: page `p` is the slice `files[30*(p-1) : 30*p]`. -/
def server_pages (files : List FileEntry) (page_num : Nat) :
    Except Unit (List FileEntry) :=
  .ok ((files.drop ((page_num - 1) * 30)).take 30)

/-- Python truthiness of the PR `body` field: present and non-empty. -/
def truthy_str (b : Option Str) : Bool := !(b.getD []).isEmpty

/-- `allowed_users = allowed_users.split(",") if allowed_users else []`. -/
def allowed_list (env : Str) : List Str :=
  if env.isEmpty then [] else env.splitOn ','

/-- The allow-list gate of `main`: the list is non-empty and the author is
not a member. -/
def author_blocked (env : Str) (login : Str) : Bool :=
  let au := allowed_list env
  !au.isEmpty && !au.contains login

/-- The observable outcome of one run: the exit code, the number of file-page
requests, the completion payloads sent, and the bodies written back. -/
structure RunResult where
  exitCode : Nat
  fileRequests : Nat
  completionRequests : List Payload
  writebacks : List Str

/-- Fixes the response of every external interaction of one run. -/
structure Oracle where
  pr_fetch : Except Unit PRData
  file_page : Nat → Except Unit (List FileEntry)
  jira_net : JiraNet
  respond : Payload → Except Str Str
  write_back_ok : Bool

/-- `main`, as a function of the configuration and the oracle.  The branches
mirror the source: failed or unparseable PR fetch exits 1; a truthy existing
body exits 0; a configured allow-list excluding the author exits 0; a failed
file page exits 1; then the Jira fetch, prompt assembly, completion (with the
temperature retry), post-processing and write-back. -/
def run_main (cfg : Config) (o : Oracle) : RunResult :=
  match o.pr_fetch with
  | .error _ => ⟨1, 0, [], []⟩
  | .ok pr =>
    if truthy_str pr.body then ⟨0, 0, [], []⟩
    else if author_blocked cfg.allowed_users_env pr.login then ⟨0, 0, [], []⟩
    else
      match collect_files o.file_page 1 10 with
      | (.error _, n) => ⟨1, n, [], []⟩
      | (.ok files, n) =>
        let task := (fetch_jira_task_description cfg.jira_base_url cfg.jira_issue_key
          cfg.jira_api_token o.jira_net).1
        let payload := mk_payload cfg pr.title task files
        match attempt_completion o.respond payload with
        | (.error _, ps) => ⟨1, n, ps, []⟩
        | (.ok out, ps) =>
          let generated := post_process out
          let final := final_description cfg.jira_base_url cfg.jira_issue_key generated
          ⟨if o.write_back_ok then 0 else 1, n, ps, [final]⟩

/-- A concrete configuration used to instantiate the run-level theorems:
no Jira settings, no allow-list, model `gpt-4.1-nano`, temperature 1. -/
def w_cfg : Config := ⟨[], [], [], [], "gpt-4.1-nano".data, 1000, 1, [], []⟩

/-- A provider error message identifying an unsupported temperature
parameter. -/
def w_err : Str :=
  "Unsupported parameter: \x27temperature\x27 is not supported with this model.".data

/-- A completion endpoint that rejects any request carrying a temperature
parameter with `w_err` and answers "generated" otherwise. -/
def w_respond : Payload → Except Str Str := fun p =>
  if p.temperature.isSome then .error w_err else .ok "generated".data

/-- A concrete oracle: the PR has no body and no author restriction applies,
the PR has no changed files, Jira is unreachable, and the completion endpoint
is `w_respond`. -/
def w_oracle : Oracle :=
  ⟨.ok ⟨[], Option.none, []⟩, fun _ => .ok [], .netFail, w_respond, true⟩

/-- The payload `run_main w_cfg w_oracle` sends first. -/
def w_payload : Payload := mk_payload w_cfg [] [] []

lemma isPrefixOf_append_self (l t : Str) : l.isPrefixOf (l ++ t) = true := by
  induction l with
  | nil => simp
  | cons c cs ih => simp [List.isPrefixOf, ih]

lemma strip_pr_lead_of_no_lead (s : Str) (h : redundant_lead.isPrefixOf s = false) :
    strip_pr_lead s = s := by
  simp [strip_pr_lead, h]

lemma prompt_step_decomp (a : Str) (f : FileEntry) :
    prompt_step a f = a ++ prompt_step [] f := by
  cases hf : f.patch with
  | none => simp [prompt_step, hf]
  | some p =>
    by_cases he : f.filename ∈ exclude_filenames <;> simp [prompt_step, hf, he]

lemma foldl_prompt_step (l : List FileEntry) :
    ∀ a : Str, l.foldl prompt_step a = a ++ l.foldl prompt_step [] := by
  induction l with
  | nil => intro a; simp
  | cons f fs ih =>
    intro a
    rw [List.foldl_cons, List.foldl_cons, ih (prompt_step a f),
      ih (prompt_step [] f), prompt_step_decomp a f, List.append_assoc]

lemma build_prompt_take (title task : Str) (files : List FileEntry) :
    build_prompt title task files
      = (prompt_header task title ++ prompt_body files).take max_allowed_characters := by
  simp only [build_prompt]
  by_cases h : max_allowed_characters
      < (prompt_header task title ++ prompt_body files).length
  · rw [if_pos h]
  · rw [if_neg h]
    exact (List.take_of_length_le (Nat.le_of_not_lt h)).symm

lemma prompt_body_single (name p : Str) (h : ¬ name ∈ exclude_filenames) :
    prompt_body [⟨name, some p⟩] = file_line name p := by
  simp [prompt_body, prompt_step, h]

set_option maxRecDepth 8000 in
lemma assembled_cex_len :
    (prompt_header [] [] ++ prompt_body [⟨"a".data, some (List.replicate 6000 'x')⟩]).length
      = 6835 := by
  rw [List.length_append, prompt_body_single _ _ (by decide)]
  have h1 : (prompt_header [] []).length = 814 := by decide
  have h2 : ∀ p : Str, (file_line "a".data p).length = 21 + p.length := by
    intro p
    simp [file_line, List.length_append]
    omega
  rw [h1, h2, List.length_replicate]

/-- Claim C1, counterexample: with the environment max-tokens setting at its
default of 1000 (`default_max_prompt_tokens`, line 212 of the source), a run
whose single file carries a 6000-character patch assembles a prompt longer
than 4×1000 characters, so the truncation budget is not the configured token
limit: `_build_prompt` truncates at the fixed 2048×4 = 8192 instead. -/
theorem C1_truncation_counterexample :
    4 * default_max_prompt_tokens
      < (build_prompt [] [] [⟨"a".data, some (List.replicate 6000 'x')⟩]).length := by
  rw [build_prompt_take, List.length_take, assembled_cex_len]
  norm_num [default_max_prompt_tokens, max_allowed_characters, max_allowed_tokens,
    characters_per_token]

/-- Claim C1, amended: for every title, issue text and file patches, the
assembled prompt is exactly the first `max_allowed_characters` = 2048×4 = 8192
characters of the untruncated assembly (a hard prefix cut), and its length
never exceeds that fixed budget, which is independent of the environment
max-tokens setting. -/
theorem C1_truncation_amended (title task : Str) (files : List FileEntry) :
    build_prompt title task files
        = (prompt_header task title ++ prompt_body files).take max_allowed_characters
    ∧ (build_prompt title task files).length ≤ max_allowed_characters := by
  refine ⟨build_prompt_take title task files, ?_⟩
  rw [build_prompt_take, List.length_take]
  exact Nat.min_le_left _ _

lemma run_main_completion (cfg : Config) (o : Oracle) (pr : PRData)
    (files : List FileEntry) (n : Nat)
    (h1 : o.pr_fetch = .ok pr) (h2 : truthy_str pr.body = false)
    (h3 : author_blocked cfg.allowed_users_env pr.login = false)
    (h4 : collect_files o.file_page 1 10 = (.ok files, n)) :
    run_main cfg o =
      (match attempt_completion o.respond (mk_payload cfg pr.title
          (fetch_jira_task_description cfg.jira_base_url cfg.jira_issue_key
            cfg.jira_api_token o.jira_net).1 files) with
       | (.error _, ps) => ⟨1, n, ps, []⟩
       | (.ok out, ps) =>
          ⟨if o.write_back_ok then 0 else 1, n, ps,
            [final_description cfg.jira_base_url cfg.jira_issue_key (post_process out)]⟩) := by
  simp [run_main, h1, h2, h3, h4]

lemma attempt_completion_retry (respond : Payload → Except Str Str) (p : Payload) (e : Str)
    (he : respond p = .error e)
    (hc : (unsupported_temperature e && p.temperature.isSome) = true) :
    attempt_completion respond p =
      (match respond { p with temperature := Option.none } with
       | .ok out => (.ok out, [p, { p with temperature := Option.none }])
       | .error _ => (.error (), [p, { p with temperature := Option.none }])) := by
  simp [attempt_completion, he, hc]

lemma attempt_completion_no_retry (respond : Payload → Except Str Str) (p : Payload) (e : Str)
    (he : respond p = .error e)
    (hc : (unsupported_temperature e && p.temperature.isSome) = false) :
    attempt_completion respond p = (.error (), [p]) := by
  simp [attempt_completion, he, hc]

/-- Claim C2: in a run that reaches the completion phase with first payload
`p`, if the first request fails with an error identifying an unsupported
temperature parameter while temperature was included, exactly one retry is
issued with the temperature parameter removed (the request trace is exactly
`[p, p without temperature]`); if the retry succeeds its output text is the
one written back, and if it fails the run exits 1 with no write-back.  If the
first request fails for any other reason, the run exits 1 with no write-back
and no retry. -/
theorem C2_temperature_retry (cfg : Config) (o : Oracle) (pr : PRData)
    (files : List FileEntry) (n : Nat) (p : Payload) (e : Str)
    (h1 : o.pr_fetch = .ok pr) (h2 : truthy_str pr.body = false)
    (h3 : author_blocked cfg.allowed_users_env pr.login = false)
    (h4 : collect_files o.file_page 1 10 = (.ok files, n))
    (hp : p = mk_payload cfg pr.title
      (fetch_jira_task_description cfg.jira_base_url cfg.jira_issue_key
        cfg.jira_api_token o.jira_net).1 files)
    (herr : o.respond p = .error e) :
    ((unsupported_temperature e && p.temperature.isSome) = true →
      (run_main cfg o).completionRequests = [p, { p with temperature := Option.none }]
      ∧ (∀ out, o.respond { p with temperature := Option.none } = .ok out →
          (run_main cfg o).writebacks
            = [final_description cfg.jira_base_url cfg.jira_issue_key (post_process out)])
      ∧ (∀ e2, o.respond { p with temperature := Option.none } = .error e2 →
          (run_main cfg o).exitCode = 1 ∧ (run_main cfg o).writebacks = []))
    ∧ ((unsupported_temperature e && p.temperature.isSome) = false →
      (run_main cfg o).exitCode = 1 ∧ (run_main cfg o).writebacks = []
      ∧ (run_main cfg o).completionRequests = [p]) := by
  have hrm := run_main_completion cfg o pr files n h1 h2 h3 h4
  rw [← hp] at hrm
  constructor
  · intro hc
    rw [attempt_completion_retry o.respond p e herr hc] at hrm
    refine ⟨?_, ?_, ?_⟩
    · rw [hrm]
      cases hres : o.respond { p with temperature := Option.none } <;> simp [hres]
    · intro out hout
      rw [hrm]
      simp [hout]
    · intro e2 he2
      rw [hrm]
      simp [he2]
  · intro hc
    rw [attempt_completion_no_retry o.respond p e herr hc] at hrm
    rw [hrm]
    exact ⟨rfl, rfl, rfl⟩

/-- Claim C2, witness: a concrete run whose first request is rejected for the
temperature parameter and whose retry succeeds writes back the retry output. -/
theorem C2_temperature_retry_witness :
    (run_main w_cfg w_oracle).writebacks
      = [final_description [] [] (post_process "generated".data)] := by
  have H := C2_temperature_retry w_cfg w_oracle ⟨[], Option.none, []⟩ [] 1 w_payload w_err
    rfl rfl rfl rfl rfl (by rfl)
  exact (H.1 (by decide)).2.1 "generated".data (by rfl)

/-- Claim C3: when the fetched pull-request metadata carries a non-empty
body, the run issues no file-page request, no completion request and no
write-back, and exits 0. -/
theorem C3_existing_body (cfg : Config) (o : Oracle) (pr : PRData) (b : Str)
    (h1 : o.pr_fetch = .ok pr) (h2 : pr.body = some b) (h3 : b ≠ []) :
    run_main cfg o = ⟨0, 0, [], []⟩ := by
  have ht : truthy_str pr.body = true := by simp [truthy_str, h2, h3]
  simp [run_main, h1, ht]

/-- Claim C3, witness. -/
theorem C3_existing_body_witness :
    run_main
      ⟨[], [], [], [], [], 0, 0, [], []⟩
      ⟨.ok ⟨[], some "done".data, []⟩, fun _ => .error (), .netFail,
        fun _ => .error [], true⟩
      = ⟨0, 0, [], []⟩ :=
  C3_existing_body _ _ _ "done".data rfl rfl (by decide)

/-- Claim C4: when the configured allow-list is non-empty and the author
login is not a member, the run issues no file-page request, no completion
request and no write-back, and exits 0. -/
theorem C4_author_not_allowed (cfg : Config) (o : Oracle) (pr : PRData)
    (h1 : o.pr_fetch = .ok pr) (h2 : cfg.allowed_users_env ≠ [])
    (h3 : pr.login ∉ allowed_list cfg.allowed_users_env) :
    run_main cfg o = ⟨0, 0, [], []⟩ := by
  have hne : allowed_list cfg.allowed_users_env ≠ [] := by
    simp only [allowed_list, List.isEmpty_eq_true, h2, if_false, List.splitOn]
    exact List.splitOnP_ne_nil _ _
  have hb : author_blocked cfg.allowed_users_env pr.login = true := by
    simp [author_blocked, hne, List.contains, h3]
  by_cases ht : truthy_str pr.body = true
  · simp [run_main, h1, ht]
  · simp [run_main, h1, ht, hb]

/-- Claim C4, witness: allow-list "alice", author "bob". -/
theorem C4_author_not_allowed_witness :
    run_main
      ⟨[], [], [], "alice".data, [], 0, 0, [], []⟩
      ⟨.ok ⟨[], Option.none, "bob".data⟩, fun _ => .error (), .netFail,
        fun _ => .error [], true⟩
      = ⟨0, 0, [], []⟩ :=
  C4_author_not_allowed _ _ _ rfl (by decide) (by decide)

lemma collect_server_aux (files : List FileEntry) :
    ∀ (fuel q : Nat),
      (collect_files (server_pages files) (q + 1) fuel).1
        = .ok ((files.drop (q * 30)).take (30 * fuel)) := by
  intro fuel
  induction fuel with
  | zero => intro q; simp [collect_files]
  | succ f ih =>
    intro q
    have hidx : q + 1 - 1 = q := by omega
    by_cases hD : files.drop (q * 30) = []
    · simp [collect_files, server_pages, hidx, hD]
    · have hch : ((files.drop (q * 30)).take 30).isEmpty = false := by
        cases hD2 : files.drop (q * 30) with
        | nil => exact absurd hD2 hD
        | cons a t => simp [List.take_succ_cons]
      cases hrec : collect_files (server_pages files) (q + 1 + 1) f with
      | mk r m =>
        have hr := ih (q + 1)
        rw [hrec] at hr
        simp only at hr
        subst hr
        simp only [collect_files, server_pages, hidx, hch, hrec, Bool.false_eq_true,
          if_false]
        rw [show 30 * (f + 1) = 30 + 30 * f by ring, List.take_add]
        rw [List.drop_drop, show q * 30 + 30 = (q + 1) * 30 by ring]

/-- Claim C5: against a server paginating `files` at 30 entries per 1-based
page, the pagination loop (pages 1..10, stopping at the first empty page)
collects exactly the first 300 files in their original order — all of them
when fewer than 300 exist — and therefore never more than 300 entries. -/
theorem C5_pagination (files : List FileEntry) :
    (collect_files (server_pages files) 1 10).1 = .ok (files.take 300)
    ∧ (files.take 300).length ≤ 300 := by
  constructor
  · have h := collect_server_aux files 10 0
    simpa using h
  · rw [List.length_take]
    exact Nat.min_le_left _ _

/-- Claim C6: the Jira fetch short-circuits to the empty string with no
network request when the base URL, issue key or API token is missing, and a
transport failure, a non-200 status or an unparseable body each degrade to
the empty string. -/
theorem C6_jira_degradation :
    (∀ (base key token : Str) (net : JiraNet),
        base = [] ∨ key = [] ∨ token = [] →
        fetch_jira_task_description base key token net = ([], false))
    ∧ (∀ (base key token : Str) (st : Nat) (body : Option JiraDescriptionField),
        st ≠ 200 →
        (fetch_jira_task_description base key token (.response st body)).1 = [])
    ∧ (∀ (base key token : Str),
        (fetch_jira_task_description base key token .netFail).1 = [])
    ∧ (∀ (base key token : Str) (st : Nat),
        (fetch_jira_task_description base key token (.response st Option.none)).1 = []) := by
  refine ⟨?_, ?_, ?_, ?_⟩
  · rintro base key token net (h | h | h) <;> simp [fetch_jira_task_description, h]
  · intro base key token st body h
    by_cases hc : base.isEmpty || key.isEmpty || token.isEmpty <;>
      simp [fetch_jira_task_description, hc, h]
  · intro base key token
    by_cases hc : base.isEmpty || key.isEmpty || token.isEmpty <;>
      simp [fetch_jira_task_description, hc]
  · intro base key token st
    by_cases hc : base.isEmpty || key.isEmpty || token.isEmpty <;>
      by_cases h200 : st = 200 <;>
      simp [fetch_jira_task_description, hc, h200]

/-- Claim C6, witness: missing base URL short-circuits with no request. -/
theorem C6_jira_degradation_witness :
    fetch_jira_task_description [] "KEY-1".data "tok".data .netFail = ([], false) :=
  C6_jira_degradation.1 [] "KEY-1".data "tok".data .netFail (Or.inl rfl)

/-- Claim C7: the outbound payload omits the temperature parameter exactly
when the lower-cased model identifier contains "codex" or starts with
"gpt-5" (a case-insensitive family test); otherwise the configured value is
attached; in particular model "gpt-5-mini" causes temperature to be
omitted. -/
theorem C7_temperature (cfg : Config) (title task : Str) (files : List FileEntry) :
    ((mk_payload cfg title task files).temperature = Option.none
        ↔ (has_substring "codex".data (cfg.open_ai_model.map Char.toLower)
            || "gpt-5".data.isPrefixOf (cfg.open_ai_model.map Char.toLower)) = true)
    ∧ ((has_substring "codex".data (cfg.open_ai_model.map Char.toLower)
            || "gpt-5".data.isPrefixOf (cfg.open_ai_model.map Char.toLower)) = false
        → (mk_payload cfg title task files).temperature = some cfg.model_temperature)
    ∧ (mk_payload { cfg with open_ai_model := "gpt-5-mini".data } title task files).temperature
        = Option.none := by
  refine ⟨?_, ?_, ?_⟩
  · by_cases h : (has_substring "codex".data (cfg.open_ai_model.map Char.toLower)
        || "gpt-5".data.isPrefixOf (cfg.open_ai_model.map Char.toLower)) = true <;>
      simp [mk_payload, should_send_temperature, h]
  · intro h
    simp [mk_payload, should_send_temperature, h]
  · have h : should_send_temperature "gpt-5-mini".data = false := by decide
    simp [mk_payload, h]

/-- Claim C7, witness: model "gpt-4.1-nano" keeps the configured
temperature. -/
theorem C7_temperature_witness :
    (mk_payload w_cfg [] [] []).temperature = some w_cfg.model_temperature :=
  (C7_temperature w_cfg [] [] []).2.1 (by decide)

/-- Claim C8: a generated text beginning with the literal phrase
"This pull request " is post-processed by removing exactly that phrase and
uppercasing the new first character, leaving the rest unchanged; any other
text is left unchanged; in particular "This pull request fixes a bug."
becomes "Fixes a bug.". -/
theorem C8_lead_strip :
    (∀ t : Str, strip_pr_lead (redundant_lead ++ t)
        = (match t with | [] => ([] : Str) | c :: cs => c.toUpper :: cs))
    ∧ (∀ s : Str, redundant_lead.isPrefixOf s = false → strip_pr_lead s = s)
    ∧ strip_pr_lead "This pull request fixes a bug.".data = "Fixes a bug.".data := by
  refine ⟨fun t => ?_, fun s h => strip_pr_lead_of_no_lead s h, by decide⟩
  simp [strip_pr_lead, isPrefixOf_append_self, List.drop_left]
  cases t <;> rfl

/-- Claim C8, witness. -/
theorem C8_lead_strip_witness : strip_pr_lead "Hello".data = "Hello".data :=
  C8_lead_strip.2.1 "Hello".data (by decide)

/-- Claim C9, counterexample: the prefix-stripping rule is not idempotent.
On "This pull request this pull request x" one application yields
"This pull request x" (the uppercasing recreates the phrase), and a second
application strips again, yielding "X". -/
theorem C9_idempotence_counterexample :
    strip_pr_lead (strip_pr_lead "This pull request this pull request x".data)
      ≠ strip_pr_lead "This pull request this pull request x".data := by
  decide

/-- Claim C9, amended: the rule is idempotent on every string whose image
under the rule does not itself begin with "This pull request " — in
particular it leaves any string not beginning with the phrase unchanged.
Full idempotence fails because uppercasing the stripped remainder can
recreate the phrase. -/
theorem C9_idempotence_amended (s : Str)
    (h : redundant_lead.isPrefixOf (strip_pr_lead s) = false) :
    strip_pr_lead (strip_pr_lead s) = strip_pr_lead s :=
  strip_pr_lead_of_no_lead (strip_pr_lead s) h

/-- Claim C9, witness. -/
theorem C9_idempotence_amended_witness :
    strip_pr_lead (strip_pr_lead "Adds a test.".data)
      = strip_pr_lead "Adds a test.".data :=
  C9_idempotence_amended "Adds a test.".data (by decide)

/-- Claim C10: the noise-file exclusion is an exact whole-string match on
the filename against {"package-lock.json"}: a file named exactly
"package-lock.json" with a patch contributes no "Changes in file" line,
while any other filename — in particular "frontend/package-lock.json",
which merely ends with that name — still contributes its patch line. -/
theorem C10_lock_exclusion :
    (∀ (p : Str) (fs : List FileEntry),
        prompt_body (⟨"package-lock.json".data, some p⟩ :: fs) = prompt_body fs)
    ∧ (∀ (name p : Str) (fs : List FileEntry), name ∉ exclude_filenames →
        prompt_body (⟨name, some p⟩ :: fs) = file_line name p ++ prompt_body fs)
    ∧ (∀ (p : Str) (fs : List FileEntry),
        prompt_body (⟨"frontend/package-lock.json".data, some p⟩ :: fs)
          = file_line "frontend/package-lock.json".data p ++ prompt_body fs) := by
  refine ⟨fun p fs => ?_, fun name p fs h => ?_, fun p fs => ?_⟩
  · rw [prompt_body, List.foldl_cons, foldl_prompt_step]
    simp [prompt_step, exclude_filenames, prompt_body]
  · rw [prompt_body, List.foldl_cons, foldl_prompt_step]
    simp [prompt_step, h, prompt_body]
  · rw [prompt_body, List.foldl_cons, foldl_prompt_step]
    have hm : ("frontend/package-lock.json".data : Str) ∉ exclude_filenames := by decide
    simp [prompt_step, hm, prompt_body]

/-- Claim C10, witness. -/
theorem C10_lock_exclusion_witness :
    prompt_body [⟨"a".data, some "p".data⟩]
      = file_line "a".data "p".data ++ prompt_body [] :=
  C10_lock_exclusion.2.1 "a".data "p".data [] (by decide)
